import Mathlib

/-!
# Verification of the HP-12C calculator engine (`calculator.py`)

Shallow embedding of the calculator engine of this repository: the RPN stack,
the entry buffer, the modal flags, the storage / financial / statistical
registers, the key dispatcher, and the secant-method interest-rate solver.

Modelling conventions
* Python `Decimal` is modelled by `Dec`: an exact rational or the quiet-NaN
  sentinel.  All concrete values exercised by the theorems below are small
  decimal fractions, on which exact rational arithmetic coincides with
  28-digit `Decimal` arithmetic.
* Python strings (entry buffers, key tokens inside the engine) are modelled
  as `List Char`; key tokens at the `pressKey` boundary stay `String`.
* `Decimal` ordered comparisons (`<`, `<=`) raise `InvalidOperation` on a NaN
  operand in Python.  Inside the big key-press machine we use the quiet
  `Bool`-valued comparisons (`dltB`, `dleB`, false on NaN) — none of the
  properties proved below depends on the NaN branch of those guards.  The
  rate solver (`solveForI`), whose claim is precisely about raising, models
  the trapping comparisons explicitly with `Except`.
-/

set_option maxRecDepth 10000

namespace HP12C

/-! ### Executable exact rationals

Mathlib's `ℚ` arithmetic does not reduce inside the kernel (its
normalisation uses well-founded recursion), so the `Decimal` payload is an
executable fraction type `Q0` whose operations always return the reduced
representative (fuel-based Euclid).  All operations below produce reduced
fractions from reduced fractions, so structural equality on reachable values
coincides with numeric equality; the comparison operators are nevertheless
written by cross-multiplication, which is representation-independent. -/

/-- An integer fraction `num / den` (den intended positive). -/
structure Q0 where
  num : Int
  den : Nat
deriving DecidableEq, Repr

/-- Euclid's algorithm with explicit fuel (so the kernel can reduce it);
`a + b + 1` units of fuel always suffice. -/
def gcdAux : Nat → Nat → Nat → Nat
  | 0, _, b => b
  | fuel + 1, a, b => if a = 0 then b else gcdAux fuel (b % a) a

def gcdF (a b : Nat) : Nat := gcdAux (a + b + 1) a b

/-- The reduced fraction `n / d` (sign moved to the numerator).  The `d = 0`
branch is junk: every division in the engine is guarded. -/
def mkQ (n d : Int) : Q0 :=
  if d = 0 then ⟨0, 1⟩
  else
    let n := if d < 0 then -n else n
    let dd := d.natAbs
    let g := gcdF n.natAbs dd
    ⟨n.tdiv g, dd / g⟩

def qofInt (n : Int) : Q0 := ⟨n, 1⟩

def qadd (a b : Q0) : Q0 := mkQ (a.num * b.den + b.num * a.den) (a.den * b.den)

def qsub (a b : Q0) : Q0 := mkQ (a.num * b.den - b.num * a.den) (a.den * b.den)

def qmul (a b : Q0) : Q0 := mkQ (a.num * b.num) (a.den * b.den)

def qdiv (a b : Q0) : Q0 := mkQ (a.num * b.den) (a.den * b.num)

def qneg (a : Q0) : Q0 := ⟨-a.num, a.den⟩

def qabs (a : Q0) : Q0 := ⟨(a.num.natAbs : Int), a.den⟩

/-- Numeric equality by cross-multiplication. -/
def qeq (a b : Q0) : Bool := a.num * b.den = b.num * a.den

def qlt (a b : Q0) : Bool := a.num * b.den < b.num * a.den

def qle (a b : Q0) : Bool := a.num * b.den ≤ b.num * a.den

/-- `a ^ k`; reduced stays reduced. -/
def qpowNat (a : Q0) (k : Nat) : Q0 := ⟨a.num ^ k, a.den ^ k⟩

def qinv (a : Q0) : Q0 := mkQ (a.den : Int) a.num

def qzpow (a : Q0) (e : Int) : Q0 :=
  if 0 ≤ e then qpowNat a e.toNat else qinv (qpowNat a (-e).toNat)

/-- Truncation toward zero, as Python `int()`. -/
def qtrunc (a : Q0) : Int := a.num.tdiv a.den

/-- Python `Decimal`: an exact value or the quiet NaN sentinel ("Error"). -/
inductive Dec where
  | num : Q0 → Dec
  | nan : Dec
deriving DecidableEq, Repr

namespace Dec

instance : OfNat Dec n := ⟨Dec.num ⟨n, 1⟩⟩

instance : Neg Dec := ⟨fun d => match d with | num q => num (qneg q) | nan => nan⟩

/-- Addition; a NaN operand propagates quietly, as in `Decimal`. -/
def add : Dec → Dec → Dec
  | num a, num b => num (qadd a b)
  | _, _ => nan

/-- Subtraction; NaN propagates quietly. -/
def sub : Dec → Dec → Dec
  | num a, num b => num (qsub a b)
  | _, _ => nan

/-- Multiplication; NaN propagates quietly. -/
def mul : Dec → Dec → Dec
  | num a, num b => num (qmul a b)
  | _, _ => nan

/-- Division.  NaN propagates quietly.  A zero divisor raises
`DivisionByZero` in Python; every division in the engine is guarded by an
`== 0` test on the divisor, so the `nan` result of that branch is never
observed by the theorems below. -/
def div : Dec → Dec → Dec
  | num a, num b => if b.num = 0 then nan else num (qdiv a b)
  | _, _ => nan

instance : Add Dec := ⟨add⟩
instance : Sub Dec := ⟨sub⟩
instance : Mul Dec := ⟨mul⟩
instance : Div Dec := ⟨div⟩

/-- Python `Decimal.__eq__`: quiet, `False` whenever a NaN is involved. -/
def eqB : Dec → Dec → Bool
  | num a, num b => qeq a b
  | _, _ => false

/-- Quiet `<` (used where the engine's guards are never reached with NaN;
Python would raise `InvalidOperation` on a NaN operand). -/
def ltB : Dec → Dec → Bool
  | num a, num b => qlt a b
  | _, _ => false

/-- Quiet `<=` (same caveat as `ltB`). -/
def leB : Dec → Dec → Bool
  | num a, num b => qle a b
  | _, _ => false

/-- Absolute value; NaN propagates. -/
def dabs : Dec → Dec
  | num a => num (qabs a)
  | nan => nan

def isNan : Dec → Bool
  | nan => true
  | _ => false

/-- Power `y ** x`.  Exact for integer exponents (Python's `Decimal.__pow__`
rounds the exact value to 28 significant digits; the theorems below never
depend on a power value that needs more than 28 digits).  For a non-integer
exponent Python computes a correctly rounded real power or raises; the
sentinel returned here is never inspected by any theorem. -/
def pow : Dec → Dec → Dec
  | num a, num b =>
    if b.den = 1 then
      if 0 ≤ b.num then num (qpowNat a b.num.toNat)
      else if a.num = 0 then nan else num (qzpow a b.num)
    else nan
  | _, _ => nan

/-- `int(d)`: truncation toward zero.  (`int(Decimal('nan'))` raises in
Python; the sentinel 0 here is never reached by the theorems below.) -/
def trunc : Dec → Int
  | num q => qtrunc q
  | nan => 0

/-- `Decimal.sqrt()`: exact when the argument is a rational square, the NaN
sentinel otherwise (Python rounds the real root to 28 digits; no theorem
below inspects an inexact root). -/
def sqrtD : Dec → Dec
  | num q =>
    let rn := Nat.sqrt q.num.natAbs
    let rd := Nat.sqrt q.den
    if 0 ≤ q.num ∧ rn * rn = q.num.natAbs ∧ rd * rd = q.den then
      num (mkQ (rn : Int) (rd : Int))
    else nan
  | nan => nan

/-- `Decimal(math.log(x))`: a float approximation of the natural log.  Its
value never reaches any theorem below (only the `n`-key computation uses it);
modelled by the NaN sentinel placeholder. -/
def logD : Dec → Dec := fun _ => nan

end Dec

/-- The five financial registers `fin_regs`. -/
structure FinRegs where
  n : Dec
  i : Dec
  pv : Dec
  pmt : Dec
  fv : Dec
deriving DecidableEq, Repr

/-- The six statistical registers `stat_regs`. -/
structure StatRegs where
  n : Dec
  sx : Dec
  sx2 : Dec
  sy : Dec
  sy2 : Dec
  sxy : Dec
deriving DecidableEq, Repr

def zeroFinRegs : FinRegs := ⟨0, 0, 0, 0, 0⟩

def zeroStatRegs : StatRegs := ⟨0, 0, 0, 0, 0, 0⟩

/-- The mutable state of `Calculator`. -/
structure Calc where
  storageRegs : List Dec
  finRegs : FinRegs
  statRegs : StatRegs
  stack : List Dec
  entryBuffer : List Char
  isEntering : Bool
  fActive : Bool
  gActive : Bool
  stoActive : Bool
  rclActive : Bool
  displayDecimals : Nat
  isEnteringExponent : Bool
  exponentBuffer : List Char
deriving DecidableEq, Repr

/-- `_reset` (also the tail of `__init__`). -/
def resetState (s : Calc) : Calc :=
  { s with
    stack := List.replicate 4 (0 : Dec)
    entryBuffer := ['0']
    isEntering := false
    fActive := false
    gActive := false
    stoActive := false
    rclActive := false
    displayDecimals := 2
    isEnteringExponent := false
    exponentBuffer := []
    statRegs := zeroStatRegs }

/-- The freshly constructed calculator (`Calculator.__init__`). -/
def initCalc : Calc :=
  resetState
    { storageRegs := List.replicate 10 (0 : Dec)
      finRegs := zeroFinRegs
      statRegs := zeroStatRegs
      stack := []
      entryBuffer := []
      isEntering := false
      fActive := false
      gActive := false
      stoActive := false
      rclActive := false
      displayDecimals := 2
      isEnteringExponent := false
      exponentBuffer := [] }

/-- `_push_stack`: `self.stack = [value] + self.stack[:-1]`. -/
def pushStack (v : Dec) (s : Calc) : Calc :=
  { s with stack := v :: s.stack.dropLast }

/-- `_pop_stack`: returns X; `self.stack = self.stack[1:] + [self.stack[-1]]`.
(The defaults are unreachable: the stack always has length 4.) -/
def popStack (s : Calc) : Dec × Calc :=
  (s.stack.headD Dec.nan,
   { s with stack := s.stack.tail ++ [s.stack.getLastD Dec.nan] })

/-- `self.stack[i] = v`. -/
def setSlot (i : Nat) (v : Dec) (s : Calc) : Calc :=
  { s with stack := s.stack.set i v }

/-- `self.stack[i]` (default unreachable under the length-4 invariant). -/
def slot (i : Nat) (s : Calc) : Dec := s.stack.getD i Dec.nan

/-! ## String helpers (Python `str` modelled as `List Char`) -/

def isDigitChar (c : Char) : Bool := '0' ≤ c ∧ c ≤ '9'

def digitToNat (c : Char) : Nat := c.toNat - '0'.toNat

def natOfDigits (cs : List Char) : Nat :=
  cs.foldl (fun acc c => 10 * acc + digitToNat c) 0

/-- Python `int(str)`: optional sign, then at least one digit and nothing
else; `None` models the raised `ValueError`. -/
def parseIntChars (cs : List Char) : Option Int :=
  let (neg, body) : Bool × List Char :=
    match cs with
    | '-' :: rest => (true, rest)
    | '+' :: rest => (false, rest)
    | _ => (false, cs)
  if body ≠ [] ∧ body.all isDigitChar then
    some (if neg then -(natOfDigits body : Int) else (natOfDigits body : Int))
  else none

/-- `['E','r','r','o','r']`, the error sentinel checked by `_handle_digit`. -/
def errorChars : List Char := ['E', 'r', 'r', 'o', 'r']

/-- The numeric value of a decimal literal: sign, integer digits, fraction
digits, decimal exponent. -/
def literalValue (neg : Bool) (ip fp : List Char) (e : Int) : Dec :=
  let numer : Int := (natOfDigits ip * 10 ^ fp.length + natOfDigits fp : Nat)
  let numer : Int := if neg then -numer else numer
  if 0 ≤ e then Dec.num (mkQ (numer * 10 ^ e.toNat) ((10 ^ fp.length : Nat) : Int))
  else Dec.num (mkQ numer ((10 ^ fp.length * 10 ^ (-e).toNat : Nat) : Int))

/-- Exponent part of a decimal literal (`e`/`E`, optional sign, digits). -/
def parseExponentPart (neg : Bool) (ip fp : List Char) : List Char → Option Dec
  | [] => some (literalValue neg ip fp 0)
  | c :: rest =>
    if c = 'e' ∨ c = 'E' then
      let (eneg, body) : Bool × List Char :=
        match rest with
        | '-' :: r => (true, r)
        | '+' :: r => (false, r)
        | _ => (false, rest)
      if body ≠ [] ∧ body.all isDigitChar then
        some (literalValue neg ip fp
          (if eneg then -(natOfDigits body : Int) else (natOfDigits body : Int)))
      else none
    else none

/-- The `Decimal(str)` constructor on numeric literals: `[sign] digits
['.' digits] [('e'|'E') [sign] digits]`, at least one mantissa digit.
`None` models the raised `InvalidOperation`.  (Python also accepts special
values such as `"NaN"`/`"Infinity"`, which no reachable entry buffer
spells.) -/
def parsePyDecimal (cs : List Char) : Option Dec :=
  let (neg, cs1) : Bool × List Char :=
    match cs with
    | '-' :: rest => (true, rest)
    | '+' :: rest => (false, rest)
    | _ => (false, cs)
  let ip := cs1.takeWhile isDigitChar
  let cs2 := cs1.dropWhile isDigitChar
  match cs2 with
  | '.' :: rest =>
    let fp := rest.takeWhile isDigitChar
    let cs3 := rest.dropWhile isDigitChar
    if ip = [] ∧ fp = [] then none
    else parseExponentPart neg ip fp cs3
  | _ =>
    if ip = [] then none
    else parseExponentPart neg ip [] cs2

/-! ## Entry handling -/

/-- `_finalize_entry`. -/
def finalizeEntry (s : Calc) : Calc :=
  if s.isEntering then
    if s.entryBuffer = [] ∨ s.entryBuffer = ['-'] then
      { s with isEntering := false }
    else
      -- buffer with ',' replaced by '.', then the exponent appended
      let entryStr := s.entryBuffer.map fun c => if c = ',' then '.' else c
      let fullStr :=
        if s.isEnteringExponent then
          if s.exponentBuffer ≠ [] then entryStr ++ 'e' :: s.exponentBuffer
          else entryStr ++ ['e', '0']
        else entryStr
      -- drop a trailing '.' before parsing
      let fullStr := if fullStr.getLast? = some '.' then fullStr.dropLast else fullStr
      let s1 :=
        match parsePyDecimal fullStr with
        | some v => pushStack v s
        | none => setSlot 0 Dec.nan s
      { s1 with isEntering := false, isEnteringExponent := false, exponentBuffer := [] }
  else s

/-- `_handle_digit` (also handles the ',' separator key). -/
def handleDigit (d : Char) (s : Calc) : Calc :=
  if s.isEnteringExponent then
    if s.exponentBuffer.length < 2 then { s with exponentBuffer := s.exponentBuffer ++ [d] }
    else s
  else if s.isEntering = false ∨ s.entryBuffer = errorChars then
    { s with isEntering := true, entryBuffer := if d = ',' then ['0', ','] else [d] }
  else if d = ',' ∧ s.entryBuffer.contains ',' then s
  else { s with entryBuffer := s.entryBuffer ++ [d] }

/-- `_handle_enter`. -/
def handleEnter (s : Calc) : Calc :=
  let s1 := finalizeEntry s
  if s1.isEntering = false then pushStack (slot 0 s1) s1 else s1

/-- `_handle_clx`. -/
def handleClx (s : Calc) : Calc :=
  if s.isEntering then { s with entryBuffer := ['0'], isEntering := false }
  else setSlot 0 (0 : Dec) s

/-- `_handle_chs`. -/
def handleChs (s : Calc) : Calc :=
  if s.isEntering then
    if s.isEnteringExponent then
      match s.exponentBuffer with
      | '-' :: rest => { s with exponentBuffer := rest }
      | _ =>
        if s.exponentBuffer ≠ ['0'] then { s with exponentBuffer := '-' :: s.exponentBuffer }
        else s
    else
      match s.entryBuffer with
      | '-' :: rest => { s with entryBuffer := rest }
      | _ =>
        if s.entryBuffer ≠ ['0'] then { s with entryBuffer := '-' :: s.entryBuffer }
        else s
  else setSlot 0 (-(slot 0 s)) s

/-- `_handle_eex`. -/
def handleEex (s : Calc) : Calc :=
  let s1 :=
    if s.isEntering = false then { s with entryBuffer := ['0'], isEntering := true }
    else s
  { s1 with isEnteringExponent := true, exponentBuffer := ['0'] }

/-! ## Arithmetic and scientific operations -/

inductive BinOp where
  | add | sub | mul | div
deriving DecidableEq, Repr

/-- `_handle_operator`: finalize, pop X then Y, compute, push.  Division by
zero writes NaN into the slot left after both pops and returns. -/
def handleOperator (op : BinOp) (s : Calc) : Calc :=
  let s0 := finalizeEntry s
  let (x, s1) := popStack s0
  let (y, s2) := popStack s1
  match op with
  | .add => pushStack (y + x) s2
  | .sub => pushStack (y - x) s2
  | .mul => pushStack (y * x) s2
  | .div => if x.eqB 0 then setSlot 0 Dec.nan s2 else pushStack (y / x) s2

/-- `_handle_roll_down`: `self.stack = self.stack[1:] + self.stack[:1]`. -/
def handleRollDown (s : Calc) : Calc :=
  let s0 := finalizeEntry s
  { s0 with stack := s0.stack.tail ++ s0.stack.take 1 }

/-- `_handle_swap_xy`. -/
def handleSwapXY (s : Calc) : Calc :=
  let s0 := finalizeEntry s
  let a := slot 0 s0
  let b := slot 1 s0
  setSlot 1 a (setSlot 0 b s0)

/-- `_handle_sto`. -/
def handleSto (regIdx : Nat) (s : Calc) : Calc :=
  let s0 := finalizeEntry s
  if regIdx < s0.storageRegs.length then
    { s0 with storageRegs := s0.storageRegs.set regIdx (slot 0 s0) }
  else s0

/-- `_handle_rcl`. -/
def handleRcl (regIdx : Nat) (s : Calc) : Calc :=
  let s0 := finalizeEntry s
  if regIdx < s0.storageRegs.length then
    pushStack (s0.storageRegs.getD regIdx Dec.nan) s0
  else s0

/-- `_handle_power`: a domain failure of `**` yields NaN, which is pushed. -/
def handlePower (s : Calc) : Calc :=
  let s0 := finalizeEntry s
  let (x, s1) := popStack s0
  let (y, s2) := popStack s1
  pushStack (y.pow x) s2

/-- `_handle_reciprocal`. -/
def handleReciprocal (s : Calc) : Calc :=
  let s0 := finalizeEntry s
  let x := slot 0 s0
  if x.eqB 0 then setSlot 0 Dec.nan s0 else setSlot 0 ((1 : Dec) / x) s0

/-- `_handle_sqrt`. -/
def handleSqrt (s : Calc) : Calc :=
  let s0 := finalizeEntry s
  let x := slot 0 s0
  if x.ltB 0 then setSlot 0 Dec.nan s0 else setSlot 0 x.sqrtD s0

/-- `_handle_percent`. -/
def handlePercent (s : Calc) : Calc :=
  let s0 := finalizeEntry s
  let (x, s1) := popStack s0
  let (y, s2) := popStack s1
  pushStack (y * (x / (100 : Dec))) s2

/-- `_handle_percent_delta`. -/
def handlePercentDelta (s : Calc) : Calc :=
  let s0 := finalizeEntry s
  let (x, s1) := popStack s0
  let (y, s2) := popStack s1
  if y.eqB 0 then setSlot 0 Dec.nan s2
  else pushStack (((x - y) / y) * (100 : Dec)) s2

/-! ## Statistics -/

/-- `_handle_clear_sigma` (no finalize in the source). -/
def handleClearSigma (s : Calc) : Calc :=
  { s with statRegs := zeroStatRegs }

/-- `_handle_sigma_plus`: finalize, accumulate from X and Y, push the new n. -/
def handleSigmaPlus (s : Calc) : Calc :=
  let s0 := finalizeEntry s
  let x := slot 0 s0
  let y := slot 1 s0
  let r := s0.statRegs
  let r1 : StatRegs :=
    { n := r.n + (1 : Dec)
      sx := r.sx + x
      sx2 := r.sx2 + x.pow (2 : Dec)
      sy := r.sy + y
      sy2 := r.sy2 + y.pow (2 : Dec)
      sxy := r.sxy + x * y }
  pushStack r1.n { s0 with statRegs := r1 }

/-- `_handle_mean` (no finalize in the source). -/
def handleMean (s : Calc) : Calc :=
  let n := s.statRegs.n
  if n.eqB 0 then setSlot 0 Dec.nan s
  else pushStack (s.statRegs.sx / n) s

/-- `_handle_std_dev` (no finalize in the source). -/
def handleStdDev (s : Calc) : Calc :=
  let n := s.statRegs.n
  if n.ltB (2 : Dec) then setSlot 0 Dec.nan s
  else
    let sumX := s.statRegs.sx
    let sumXSq := s.statRegs.sx2
    let numerator := n * sumXSq - sumX.pow (2 : Dec)
    let denominator := n * (n - (1 : Dec))
    if denominator.eqB 0 then setSlot 0 Dec.nan s
    else
      let variance := numerator / denominator
      if variance.ltB 0 then setSlot 0 Dec.nan s
      else pushStack variance.sqrtD s

/-! ## Date engine

`datetime.date` modelled as a validated proleptic-Gregorian triple with
Rata-Die ordinals (CPython's `toordinal`/`fromordinal`). -/

structure PyDate where
  year : Nat
  month : Nat
  day : Nat
deriving DecidableEq, Repr

def isLeapYear (y : Nat) : Bool := y % 4 = 0 ∧ (y % 100 ≠ 0 ∨ y % 400 = 0)

def daysInMonth (y m : Nat) : Nat :=
  if m = 2 then (if isLeapYear y then 29 else 28)
  else if m = 4 ∨ m = 6 ∨ m = 9 ∨ m = 11 then 30
  else 31

/-- `datetime.date(year, month, day)`: `None` models the raised
`ValueError` on an out-of-range field. -/
def mkDateOpt (y m d : Int) : Option PyDate :=
  if 1 ≤ y ∧ y ≤ 9999 ∧ 1 ≤ m ∧ m ≤ 12 ∧ 1 ≤ d ∧ (d : Int) ≤ (daysInMonth y.toNat m.toNat : Int)
  then some ⟨y.toNat, m.toNat, d.toNat⟩
  else none

/-- Days in the months strictly before month `m` of year `y`. -/
def daysBeforeMonth (y m : Nat) : Nat :=
  (List.range m).foldl (fun acc k => if k = 0 then acc else acc + daysInMonth y k) 0

/-- `date.toordinal()`: day 1 is 0001-01-01. -/
def toOrdinal (dt : PyDate) : Nat :=
  365 * (dt.year - 1) + (dt.year - 1) / 4 - (dt.year - 1) / 100 + (dt.year - 1) / 400
    + daysBeforeMonth dt.year dt.month + dt.day

/-- Month probe of `date.fromordinal`: walk the months of `y` consuming the
0-based day offset `r` (twelve steps of fuel suffice). -/
def monthProbe (y : Nat) : Nat → Nat → Nat → Nat × Nat
  | 0, m, r => (m, r + 1)
  | fuel + 1, m, r =>
    if r < daysInMonth y m then (m, r + 1)
    else monthProbe y fuel (m + 1) (r - daysInMonth y m)

/-- `date.fromordinal` (CPython `_ord2ymd`). -/
def fromOrdinal (ord : Nat) : PyDate :=
  let n0 := ord - 1
  let n400 := n0 / 146097
  let r1 := n0 % 146097
  let n100 := r1 / 36524
  let r2 := r1 % 36524
  let n4 := r2 / 1461
  let r3 := r2 % 1461
  let n1 := r3 / 365
  let r4 := r3 % 365
  let year := n400 * 400 + n100 * 100 + n4 * 4 + n1 + 1
  if n1 = 4 ∨ n100 = 4 then ⟨year - 1, 12, 31⟩
  else
    let (m, d) := monthProbe year 11 1 r4
    ⟨year, m, d⟩

/-- Digits of `n` (so `intChars` below mirrors `str(int(...))`). -/
def natChars (n : Nat) : List Char := Nat.toDigits 10 n

def intChars (i : Int) : List Char :=
  if i < 0 then '-' :: natChars i.natAbs else natChars i.natAbs

/-- `str(d)` for a `Decimal`, as a character list: sign, integer digits and,
when the fraction is non-zero, '.' and fraction digits (28 fraction digits
of fuel, enough for every 28-significant-digit `Decimal`; Python prints the
stored digits exactly and may keep trailing zeros or switch to scientific
notation — the only property of this string the engine depends on is that it
never contains a comma, so the cleaned string in `_parse_date_number` never
contains a dot). -/
def fracChars : Nat → Nat → Nat → List Char
  | 0, _, _ => []
  | fuel + 1, r, den =>
    if r = 0 then []
    else
      let r10 := r * 10
      Char.ofNat ('0'.toNat + r10 / den) :: fracChars fuel (r10 % den) den

def decChars : Dec → List Char
  | Dec.num q =>
    let sgn : List Char := if q.num < 0 then ['-'] else []
    let n := q.num.natAbs
    let den := q.den
    sgn ++ natChars (n / den)
      ++ (if n % den = 0 then [] else '.' :: fracChars 28 (n % den) den)
  | Dec.nan => ['N', 'a', 'N']

/-- Python `str.split(sep)` for a one-character separator. -/
def splitOnChar (sep : Char) (cs : List Char) : List (List Char) :=
  cs.foldr
    (fun c acc =>
      match acc with
      | [] => if c = sep then [[], []] else [[c]]
      | part :: rest => if c = sep then [] :: part :: rest else (c :: part) :: rest)
    [[]]

/-- `_parse_date_number`.  The first `replace('.', '')` deletes every dot of
`str(date_num)`, and `str` of a `Decimal` never contains a comma, so the
dotted branch (kept below, mirroring the source) is unreachable for
`Decimal` inputs: every input falls to the `str(int(date_num))` branch.
For `Dec.nan`, `int(Decimal('nan'))` would raise `InvalidOperation` (not
caught by the `except (ValueError, IndexError)` clause); no theorem below
reaches that case. -/
def parseDateNumber (d : Dec) : Option PyDate :=
  let cleaned := ((decChars d).filter (· ≠ '.')).map fun c => if c = ',' then '.' else c
  let fields : Option (Int × Int × Int) :=
    if cleaned.contains '.' then
      match splitOnChar '.' cleaned with
      | dayPart :: fracPart :: _ =>
        match parseIntChars dayPart with
        | none => none
        | some day =>
          if fracPart.length = 4 then
            match parseIntChars (fracPart.take 2), parseIntChars (fracPart.drop 2) with
            | some month, some year => some (day, month, year)
            | _, _ => none
          else if 5 ≤ fracPart.length then
            match parseIntChars (fracPart.take 2), parseIntChars ((fracPart.drop 2).take 4) with
            | some month, some year => some (day, month, year)
            | _, _ => none
          else none
      | _ => none
    else
      let istr := intChars (Dec.trunc d)
      match parseIntChars (istr.take 2), parseIntChars ((istr.drop 2).take 2),
            parseIntChars (istr.drop 4) with
      | some day, some month, some year => some (day, month, year)
      | _, _, _ => none
  match fields with
  | none => none
  | some (day, month, year) =>
    let year := if year < 100 then year + 1900 else year
    mkDateOpt year month day

/-- `_format_date_to_number`: `Decimal(f"{day:02d}.{month:02d}{year}")`. -/
def formatDateToNumber (dt : PyDate) : Dec :=
  let yearLen := (natChars dt.year).length
  Dec.num (mkQ
    ((dt.day * 10 ^ (2 + yearLen) + dt.month * 10 ^ yearLen + dt.year : Nat) : Int)
    ((10 ^ (2 + yearLen) : Nat) : Int))

/-- `_handle_delta_days`. -/
def handleDeltaDays (s : Calc) : Calc :=
  let s0 := finalizeEntry s
  let (date2Num, s1) := popStack s0
  let (date1Num, s2) := popStack s1
  match parseDateNumber date2Num, parseDateNumber date1Num with
  | some date2, some date1 =>
    pushStack (Dec.num (qofInt ((toOrdinal date2 : Int) - (toOrdinal date1 : Int)))) s2
  | _, _ => setSlot 0 Dec.nan s2

/-- `_handle_date_calc`: `start + timedelta(days=int(days_to_add))`;
an out-of-range result raises `OverflowError`, caught as NaN. -/
def handleDateCalc (s : Calc) : Calc :=
  let s0 := finalizeEntry s
  let (daysToAdd, s1) := popStack s0
  let (startDateNum, s2) := popStack s1
  match parseDateNumber startDateNum with
  | none => setSlot 0 Dec.nan s2
  | some startDate =>
    let ord : Int := (toOrdinal startDate : Int) + Dec.trunc daysToAdd
    if 1 ≤ ord ∧ ord ≤ 3652059 then
      pushStack (formatDateToNumber (fromOrdinal ord.toNat)) s2
    else setSlot 0 Dec.nan s2

/-! ## Depreciation -/

/-- `_handle_sl_depreciation`. -/
def handleSlDepreciation (s : Calc) : Calc :=
  let s0 := finalizeEntry s
  let (life, s1) := popStack s0
  let (salvageValue, s2) := popStack s1
  let (cost, s3) := popStack s2
  if life.eqB 0 then setSlot 0 Dec.nan s3
  else pushStack ((cost - salvageValue) / life) s3

/-- `_handle_soyd_depreciation`. -/
def handleSoydDepreciation (s : Calc) : Calc :=
  let s0 := finalizeEntry s
  let (period, s1) := popStack s0
  let (life, s2) := popStack s1
  let (salvageValue, s3) := popStack s2
  let (cost, s4) := popStack s3
  if life.eqB 0 ∨ period.eqB 0 ∨ life.ltB period then setSlot 0 Dec.nan s4
  else
    let sumOfYearsDigits := life * (life + (1 : Dec)) / (2 : Dec)
    let remainingLife := life - period + (1 : Dec)
    pushStack ((cost - salvageValue) * (remainingLife / sumOfYearsDigits)) s4

/-- The `for p in range(1, int(period)+1)` loop of `_handle_db_depreciation`,
carrying (bookValue, depreciation); the `break` with `depreciation = 0`
returns 0. -/
def dbLoop (rate salvageValue : Dec) : Nat → Dec → Dec → Dec
  | 0, _, dep => dep
  | fuel + 1, bookValue, _ =>
    if bookValue.leB salvageValue then (0 : Dec)
    else
      let currentDepreciation := bookValue * rate
      let currentDepreciation :=
        if (bookValue - currentDepreciation).ltB salvageValue then bookValue - salvageValue
        else currentDepreciation
      dbLoop rate salvageValue fuel (bookValue - currentDepreciation) currentDepreciation

/-- `_handle_db_depreciation`. -/
def handleDbDepreciation (s : Calc) : Calc :=
  let s0 := finalizeEntry s
  let (ratePercent, s1) := popStack s0
  let (period, s2) := popStack s1
  let (life, s3) := popStack s2
  let (salvageValue, s4) := popStack s3
  let (cost, s5) := popStack s4
  if life.eqB 0 ∨ period.eqB 0 ∨ life.ltB period then setSlot 0 Dec.nan s5
  else if ratePercent.leB 0 then setSlot 0 Dec.nan s5
  else
    let depreciationRate := ratePercent / (100 : Dec) / life
    pushStack (dbLoop depreciationRate salvageValue (Dec.trunc period).toNat cost (0 : Dec)) s5

/-! ## TVM solver (`_solve_for_i`)

Ordered `Decimal` comparisons raise `InvalidOperation` on a NaN operand
(the default context traps it); `Except Unit` models that raised
exception escaping the solver. -/

/-- Trapping `<`: errors on a NaN operand, as Python `Decimal.__lt__`. -/
def dcmpLt : Dec → Dec → Except Unit Bool
  | Dec.num a, Dec.num b => .ok (qlt a b)
  | _, _ => .error ()

/-- Trapping `<=`. -/
def dcmpLe : Dec → Dec → Except Unit Bool
  | Dec.num a, Dec.num b => .ok (qle a b)
  | _, _ => .error ()

/-- The TVM function `f(rate)` closed over n, PV, PMT, FV (note the `/12`
factor on the PMT term, kept from the source). -/
def tvmF (n pv pmt fv rate : Dec) : Dec :=
  if rate.eqB 0 then pv + pmt * n + fv
  else
    pv * ((1 : Dec) + rate).pow n
      + pmt * ((1 : Dec) + rate / (12 : Dec)) * ((((1 : Dec) + rate).pow n - (1 : Dec)) / rate)
      + fv

def tolD : Dec := Dec.num ⟨1, 1000000000⟩

def i0Init : Dec := Dec.num ⟨1, 200⟩

def i1Init : Dec := Dec.num ⟨1, 100⟩

/-- The secant loop of `_solve_for_i`, fuel = remaining iterations of
`for _ in range(max_iter)`; exhausted fuel is the non-convergence NaN. -/
def secantGo (f : Dec → Dec) : Nat → Dec → Dec → Except Unit Dec
  | 0, _, _ => .ok Dec.nan
  | fuel + 1, i0, i1 =>
    let f0 := f i0
    let f1 := f i1
    match dcmpLt f1.dabs tolD with
    | .error e => .error e
    | .ok true => .ok i1
    | .ok false =>
      if (f1 - f0).eqB 0 then .ok Dec.nan
      else
        let iNext := i1 - f1 * (i1 - i0) / (f1 - f0)
        match dcmpLt (iNext - i1).dabs tolD with
        | .error e => .error e
        | .ok true => .ok iNext
        | .ok false => secantGo f fuel i1 iNext

/-- Number of loop iterations `secantGo` executes (entries into the loop
body). -/
def secantSteps (f : Dec → Dec) : Nat → Dec → Dec → Nat
  | 0, _, _ => 0
  | fuel + 1, i0, i1 =>
    let f0 := f i0
    let f1 := f i1
    match dcmpLt f1.dabs tolD with
    | .error _ => 1
    | .ok true => 1
    | .ok false =>
      if (f1 - f0).eqB 0 then 1
      else
        let iNext := i1 - f1 * (i1 - i0) / (f1 - f0)
        match dcmpLt (iNext - i1).dabs tolD with
        | .error _ => 1
        | .ok true => 1
        | .ok false => 1 + secantSteps f fuel i1 iNext

/-- `_solve_for_i`. -/
def solveForI (n pv pmt fv : Dec) : Except Unit Dec :=
  match dcmpLe n 0 with
  | .error e => .error e
  | .ok true => .ok Dec.nan
  | .ok false => secantGo (tvmF n pv pmt fv) 100 i0Init i1Init

/-- Total wrapper used by the key machine; the `error` case models a Python
exception propagating out of `press_key` and is never exercised by the
theorems below. -/
def solveForITotal (n pv pmt fv : Dec) : Dec :=
  match solveForI n pv pmt fv with
  | .ok v => v
  | .error _ => Dec.nan

/-! ## Financial keys -/

inductive FinKey where
  | n | i | pv | pmt | fv
deriving DecidableEq, Repr

def FinRegs.get : FinRegs → FinKey → Dec
  | r, .n => r.n
  | r, .i => r.i
  | r, .pv => r.pv
  | r, .pmt => r.pmt
  | r, .fv => r.fv

def FinRegs.setReg : FinRegs → FinKey → Dec → FinRegs
  | r, .n, v => { r with n := v }
  | r, .i, v => { r with i := v }
  | r, .pv, v => { r with pv := v }
  | r, .pmt, v => { r with pmt := v }
  | r, .fv, v => { r with fv := v }

/-- `_handle_fin_op`: store the just-typed literal, or compute the register
from the other four.  (In the `n` computation the source takes float
`math.log`s; their values never reach any theorem below — see `Dec.logD`.) -/
def handleFinOp (k : FinKey) (s : Calc) : Calc :=
  let wasEntering := s.isEntering
  let s0 := finalizeEntry s
  if wasEntering then
    { s0 with finRegs := s0.finRegs.setReg k (slot 0 s0) }
  else
    let n := s0.finRegs.n
    let i := s0.finRegs.i / (100 : Dec)
    let pv := s0.finRegs.pv
    let pmt := s0.finRegs.pmt
    let fv := s0.finRegs.fv
    let store : Dec → Calc := fun result =>
      setSlot 0 result { s0 with finRegs := s0.finRegs.setReg k result }
    match k with
    | .fv =>
      if i.eqB 0 then store (-(pv + pmt * n))
      else store (-(pv * ((1 : Dec) + i).pow n
        + pmt * ((((1 : Dec) + i).pow n - (1 : Dec)) / i)))
    | .pv =>
      if i.eqB 0 then store (-(fv + pmt * n))
      else store (-(fv + pmt * ((((1 : Dec) + i).pow n - (1 : Dec)) / i))
        / ((1 : Dec) + i).pow n)
    | .pmt =>
      if i.eqB 0 then
        if n.eqB 0 then setSlot 0 Dec.nan s0
        else store (-(pv + fv) / n)
      else
        let denominator := (((1 : Dec) + i).pow n - (1 : Dec)) / i
        if denominator.eqB 0 then setSlot 0 Dec.nan s0
        else store (-(pv * ((1 : Dec) + i).pow n + fv) / denominator)
    | .n =>
      if i.eqB 0 then
        if pmt.eqB 0 then setSlot 0 Dec.nan s0
        else store (-(pv + fv) / pmt)
      else
        let logArgNum := pmt - fv * i
        let logArgDen := pv * i + pmt
        if logArgDen.eqB 0 ∨ (logArgNum / logArgDen).leB 0 then setSlot 0 Dec.nan s0
        else store (Dec.logD (logArgNum / logArgDen) / Dec.logD ((1 : Dec) + i))
    | .i => store (solveForITotal n pv pmt fv * (100 : Dec))

/-! ## Modal keys, dispatch and `press_key` -/

def activateF (s : Calc) : Calc := { s with fActive := true, gActive := false }

def activateG (s : Calc) : Calc :=
  { s with gActive := true, fActive := false, stoActive := false, rclActive := false }

def activateSto (s : Calc) : Calc :=
  { s with stoActive := true, rclActive := false, fActive := false, gActive := false }

def activateRcl (s : Calc) : Calc :=
  { s with rclActive := true, stoActive := false, fActive := false, gActive := false }

/-- `_set_display_format`. -/
def setDisplayFormat (numDecimals : Nat) (s : Calc) : Calc :=
  if numDecimals ≤ 9 then { s with displayDecimals := numDecimals } else s

/-- The operations of `method_map` (a tagged variant per entry; `unknown`
is every unmapped name, a no-op apart from a printed diagnostic). -/
inductive Op where
  | digit (c : Char)
  | enter
  | binop (b : BinOp)
  | chs
  | onKey
  | actF
  | actG
  | clx
  | swapXY
  | rollDown
  | power
  | recip
  | sqrtK
  | percent
  | percentDelta
  | actSto
  | actRcl
  | sigmaPlus
  | clearSigma
  | meanK
  | stdDevK
  | slDep
  | soydDep
  | dbDep
  | eex
  | deltaDys
  | dateCalc
  | fin (k : FinKey)
  | unknown
deriving DecidableEq, Repr

/-- `method_map` of `_execute_function` (with `None` function names mapping
to the no-op, as the early `if not func_name: return`). -/
def dispatch : Option String → Op
  | none => .unknown
  | some t =>
    match t with
    | "0" => .digit '0'
    | "1" => .digit '1'
    | "2" => .digit '2'
    | "3" => .digit '3'
    | "4" => .digit '4'
    | "5" => .digit '5'
    | "6" => .digit '6'
    | "7" => .digit '7'
    | "8" => .digit '8'
    | "9" => .digit '9'
    | "," => .digit ','
    | "ENTER" => .enter
    | "+" => .binop .add
    | "-" => .binop .sub
    | "×" => .binop .mul
    | "÷" => .binop .div
    | "CHS" => .chs
    | "ON" => .onKey
    | "f" => .actF
    | "g" => .actG
    | "CLx" => .clx
    | "x<>y" => .swapXY
    | "R↓" => .rollDown
    | "y^x" => .power
    | "1/x" => .recip
    | "√x" => .sqrtK
    | "%" => .percent
    | "Δ%" => .percentDelta
    | "STO" => .actSto
    | "RCL" => .actRcl
    | "Σ+" => .sigmaPlus
    | "CLΣ" => .clearSigma
    | "x̄" => .meanK
    | "s" => .stdDevK
    | "SL" => .slDep
    | "SOYD" => .soydDep
    | "DB" => .dbDep
    | "EEX" => .eex
    | "ΔDYS" => .deltaDys
    | "DATE" => .dateCalc
    | "n" => .fin .n
    | "i" => .fin .i
    | "PV" => .fin .pv
    | "PMT" => .fin .pmt
    | "FV" => .fin .fv
    | _ => .unknown

def applyOp : Op → Calc → Calc
  | .digit c, s => handleDigit c s
  | .enter, s => handleEnter s
  | .binop b, s => handleOperator b s
  | .chs, s => handleChs s
  | .onKey, s => resetState s
  | .actF, s => activateF s
  | .actG, s => activateG s
  | .clx, s => handleClx s
  | .swapXY, s => handleSwapXY s
  | .rollDown, s => handleRollDown s
  | .power, s => handlePower s
  | .recip, s => handleReciprocal s
  | .sqrtK, s => handleSqrt s
  | .percent, s => handlePercent s
  | .percentDelta, s => handlePercentDelta s
  | .actSto, s => activateSto s
  | .actRcl, s => activateRcl s
  | .sigmaPlus, s => handleSigmaPlus s
  | .clearSigma, s => handleClearSigma s
  | .meanK, s => handleMean s
  | .stdDevK, s => handleStdDev s
  | .slDep, s => handleSlDepreciation s
  | .soydDep, s => handleSoydDepreciation s
  | .dbDep, s => handleDbDepreciation s
  | .eex, s => handleEex s
  | .deltaDys, s => handleDeltaDays s
  | .dateCalc, s => handleDateCalc s
  | .fin k, s => handleFinOp k s
  | .unknown, s => s

/-- `_execute_function`. -/
def executeFunction (funcName : Option String) (s : Calc) : Calc :=
  applyOp (dispatch funcName) s

/-- `f_map` built from `constants.BOTOES` (main label → f label). -/
def fMap : String → Option String
  | "n" => some "12x"
  | "i" => some "12÷"
  | "PV" => some "CF0"
  | "PMT" => some "CFj"
  | "FV" => some "Nj"
  | "y^x" => some "√x"
  | "1/x" => some "%"
  | "Δ%" => some "FRAC"
  | "R↓" => some "x<>y"
  | "SST" => some "BST"
  | "STO" => some "RCL"
  | "8" => some "SL"
  | "9" => some "SOYD"
  | "Σ+" => some "CLΣ"
  | "EEX" => some "ΔDYS"
  | "CHS" => some "DATE"
  | "ENTER" => some "INPUT"
  | _ => none

/-- `g_map` built from `constants.BOTOES` (main label → g label). -/
def gMap : String → Option String
  | "n" => some "AMORT"
  | "i" => some "INT"
  | "PV" => some "NPV"
  | "PMT" => some "IRR"
  | "FV" => some "RND"
  | "y^x" => some "e^x"
  | "1/x" => some "LN"
  | "Δ%" => some "INTG"
  | "R↓" => some "PSE"
  | "SST" => some "GTO"
  | "STO" => some "PREFIX"
  | "7" => some "YTM"
  | "8" => some "x̄"
  | "9" => some "s"
  | "÷" => some "DB"
  | "Σ+" => some "MEM"
  | "EEX" => some "R/S"
  | "CHS" => some "PRICE"
  | "ENTER" => some "FIN"
  | _ => none

/-- `key.isdigit() and len(key) == 1`. -/
def isDigitKey (t : String) : Bool :=
  match t.data with
  | [c] => isDigitChar c
  | _ => false

/-- `int(key)` for a single-digit token. -/
def digitVal (t : String) : Nat :=
  match t.data with
  | [c] => digitToNat c
  | _ => 0

/-- `press_key`. -/
def pressKey (key : String) (s : Calc) : Calc :=
  if s.stoActive = true ∧ isDigitKey key = true then handleSto (digitVal key) s
  else if s.rclActive = true ∧ isDigitKey key = true then handleRcl (digitVal key) s
  else
    let s := { s with stoActive := false, rclActive := false }
    if s.fActive then
      if isDigitKey key then { setDisplayFormat (digitVal key) s with fActive := false }
      else { executeFunction (fMap key) s with fActive := false }
    else if s.gActive then { executeFunction (gMap key) s with gActive := false }
    else executeFunction (some key) s

/-- A whole key sequence, first key first. -/
def runKeys (keys : List String) (s : Calc) : Calc :=
  keys.foldl (fun acc k => pressKey k acc) s

/-- A state with populated storage, financial and statistical registers and a
pending entry, used to exercise the reset key. -/
def c7State : Calc :=
  { initCalc with
    storageRegs := (3 : Dec) :: List.replicate 9 (0 : Dec)
    finRegs := { zeroFinRegs with pv := (5 : Dec) }
    statRegs := { zeroStatRegs with n := (2 : Dec) }
    stack := [(9 : Dec), 0, 0, 0]
    entryBuffer := ['4']
    isEntering := true
    stoActive := true
    displayDecimals := 6 }

/-- A state mid-way through typing `4` with a stocked stack, used to exercise
ENTER. -/
def c10State : Calc := runKeys ["1", "ENTER", "2", "ENTER", "3", "ENTER", "4"] initCalc

/-! ## General lemmas -/

theorem finalizeEntry_isEntering (s : Calc) : (finalizeEntry s).isEntering = false := by
  unfold finalizeEntry
  split
  · split
    · rfl
    · rfl
  · simp_all

theorem finalizeEntry_of_not_entering (s : Calc) (h : s.isEntering = false) :
    finalizeEntry s = s := by
  simp [finalizeEntry, h]

theorem finalizeEntry_idem (s : Calc) : finalizeEntry (finalizeEntry s) = finalizeEntry s :=
  finalizeEntry_of_not_entering _ (finalizeEntry_isEntering s)

/-- `_finalize_entry` touches only the stack and the entry fields. -/
theorem finalizeEntry_frame (s : Calc) :
    (finalizeEntry s).storageRegs = s.storageRegs
  ∧ (finalizeEntry s).finRegs = s.finRegs
  ∧ (finalizeEntry s).statRegs = s.statRegs
  ∧ (finalizeEntry s).fActive = s.fActive
  ∧ (finalizeEntry s).gActive = s.gActive
  ∧ (finalizeEntry s).stoActive = s.stoActive
  ∧ (finalizeEntry s).rclActive = s.rclActive
  ∧ (finalizeEntry s).displayDecimals = s.displayDecimals := by
  unfold finalizeEntry
  split
  · split
    · exact ⟨rfl, rfl, rfl, rfl, rfl, rfl, rfl, rfl⟩
    · dsimp only
      split <;> exact ⟨rfl, rfl, rfl, rfl, rfl, rfl, rfl, rfl⟩
  · exact ⟨rfl, rfl, rfl, rfl, rfl, rfl, rfl, rfl⟩

theorem finalizeEntry_fActive (s : Calc) : (finalizeEntry s).fActive = s.fActive :=
  (finalizeEntry_frame s).2.2.2.1

theorem finalizeEntry_gActive (s : Calc) : (finalizeEntry s).gActive = s.gActive :=
  (finalizeEntry_frame s).2.2.2.2.1

theorem finalizeEntry_stoActive (s : Calc) : (finalizeEntry s).stoActive = s.stoActive :=
  (finalizeEntry_frame s).2.2.2.2.2.1

theorem finalizeEntry_rclActive (s : Calc) : (finalizeEntry s).rclActive = s.rclActive :=
  (finalizeEntry_frame s).2.2.2.2.2.2.1

theorem finalizeEntry_len (s : Calc) (h : s.stack.length = 4) :
    (finalizeEntry s).stack.length = 4 := by
  unfold finalizeEntry
  split
  · split
    · simpa using h
    · dsimp only
      split <;> simp [pushStack, setSlot, h]
  · simpa using h

/-! ## Stack-length preservation (one lemma per handler) -/

theorem handleDigit_len (c : Char) (s : Calc) (h : s.stack.length = 4) :
    (handleDigit c s).stack.length = 4 := by
  unfold handleDigit
  repeat' split
  all_goals simpa using h

theorem handleEnter_len (s : Calc) (h : s.stack.length = 4) :
    (handleEnter s).stack.length = 4 := by
  have h0 := finalizeEntry_len s h
  unfold handleEnter
  dsimp only
  split <;> simp [pushStack, h0]

theorem handleOperator_len (op : BinOp) (s : Calc) (h : s.stack.length = 4) :
    (handleOperator op s).stack.length = 4 := by
  have h0 := finalizeEntry_len s h
  unfold handleOperator
  dsimp only [popStack]
  repeat' split
  all_goals simp [pushStack, setSlot, h0]

theorem handleChs_len (s : Calc) (h : s.stack.length = 4) :
    (handleChs s).stack.length = 4 := by
  unfold handleChs
  repeat' split
  all_goals simp [setSlot, h]

theorem handleClx_len (s : Calc) (h : s.stack.length = 4) :
    (handleClx s).stack.length = 4 := by
  unfold handleClx
  split <;> simp [setSlot, h]

theorem handleEex_len (s : Calc) (h : s.stack.length = 4) :
    (handleEex s).stack.length = 4 := by
  unfold handleEex
  repeat' split
  all_goals simpa using h

theorem handleRollDown_len (s : Calc) (h : s.stack.length = 4) :
    (handleRollDown s).stack.length = 4 := by
  have h0 := finalizeEntry_len s h
  simp [handleRollDown, h0]

theorem handleSwapXY_len (s : Calc) (h : s.stack.length = 4) :
    (handleSwapXY s).stack.length = 4 := by
  have h0 := finalizeEntry_len s h
  simp [handleSwapXY, setSlot, h0]

theorem handleSto_len (regIdx : Nat) (s : Calc) (h : s.stack.length = 4) :
    (handleSto regIdx s).stack.length = 4 := by
  have h0 := finalizeEntry_len s h
  unfold handleSto
  dsimp only
  split <;> simpa using h0

theorem handleRcl_len (regIdx : Nat) (s : Calc) (h : s.stack.length = 4) :
    (handleRcl regIdx s).stack.length = 4 := by
  have h0 := finalizeEntry_len s h
  unfold handleRcl
  dsimp only
  split <;> simp [pushStack, h0]

theorem handlePower_len (s : Calc) (h : s.stack.length = 4) :
    (handlePower s).stack.length = 4 := by
  have h0 := finalizeEntry_len s h
  unfold handlePower
  dsimp only [popStack]
  simp [pushStack, h0]

theorem handleReciprocal_len (s : Calc) (h : s.stack.length = 4) :
    (handleReciprocal s).stack.length = 4 := by
  have h0 := finalizeEntry_len s h
  unfold handleReciprocal
  dsimp only
  split <;> simp [setSlot, h0]

theorem handleSqrt_len (s : Calc) (h : s.stack.length = 4) :
    (handleSqrt s).stack.length = 4 := by
  have h0 := finalizeEntry_len s h
  unfold handleSqrt
  dsimp only
  split <;> simp [setSlot, h0]

theorem handlePercent_len (s : Calc) (h : s.stack.length = 4) :
    (handlePercent s).stack.length = 4 := by
  have h0 := finalizeEntry_len s h
  unfold handlePercent
  dsimp only [popStack]
  simp [pushStack, h0]

theorem handlePercentDelta_len (s : Calc) (h : s.stack.length = 4) :
    (handlePercentDelta s).stack.length = 4 := by
  have h0 := finalizeEntry_len s h
  unfold handlePercentDelta
  dsimp only [popStack]
  split <;> simp [pushStack, setSlot, h0]

theorem handleClearSigma_len (s : Calc) (h : s.stack.length = 4) :
    (handleClearSigma s).stack.length = 4 := by
  simpa [handleClearSigma] using h

theorem handleSigmaPlus_len (s : Calc) (h : s.stack.length = 4) :
    (handleSigmaPlus s).stack.length = 4 := by
  have h0 := finalizeEntry_len s h
  simp [handleSigmaPlus, pushStack, h0]

theorem handleMean_len (s : Calc) (h : s.stack.length = 4) :
    (handleMean s).stack.length = 4 := by
  unfold handleMean
  dsimp only
  split <;> simp [pushStack, setSlot, h]

theorem handleStdDev_len (s : Calc) (h : s.stack.length = 4) :
    (handleStdDev s).stack.length = 4 := by
  unfold handleStdDev
  dsimp only
  repeat' split
  all_goals simp [pushStack, setSlot, h]

theorem handleDeltaDays_len (s : Calc) (h : s.stack.length = 4) :
    (handleDeltaDays s).stack.length = 4 := by
  have h0 := finalizeEntry_len s h
  unfold handleDeltaDays
  dsimp only [popStack]
  repeat' split
  all_goals simp [pushStack, setSlot, h0]

theorem handleDateCalc_len (s : Calc) (h : s.stack.length = 4) :
    (handleDateCalc s).stack.length = 4 := by
  have h0 := finalizeEntry_len s h
  unfold handleDateCalc
  dsimp only [popStack]
  repeat' split
  all_goals simp [pushStack, setSlot, h0]

theorem handleSlDepreciation_len (s : Calc) (h : s.stack.length = 4) :
    (handleSlDepreciation s).stack.length = 4 := by
  have h0 := finalizeEntry_len s h
  unfold handleSlDepreciation
  dsimp only [popStack]
  split <;> simp [pushStack, setSlot, h0]

theorem handleSoydDepreciation_len (s : Calc) (h : s.stack.length = 4) :
    (handleSoydDepreciation s).stack.length = 4 := by
  have h0 := finalizeEntry_len s h
  unfold handleSoydDepreciation
  dsimp only [popStack]
  split <;> simp [pushStack, setSlot, h0]

theorem handleDbDepreciation_len (s : Calc) (h : s.stack.length = 4) :
    (handleDbDepreciation s).stack.length = 4 := by
  have h0 := finalizeEntry_len s h
  unfold handleDbDepreciation
  dsimp only [popStack]
  repeat' split
  all_goals simp [pushStack, setSlot, h0]

theorem handleFinOp_len (k : FinKey) (s : Calc) (h : s.stack.length = 4) :
    (handleFinOp k s).stack.length = 4 := by
  have h0 := finalizeEntry_len s h
  unfold handleFinOp
  dsimp only
  repeat' split
  all_goals simp [setSlot, h0]

theorem applyOp_len (op : Op) (s : Calc) (h : s.stack.length = 4) :
    (applyOp op s).stack.length = 4 := by
  cases op with
  | digit c => exact handleDigit_len c s h
  | enter => exact handleEnter_len s h
  | binop b => exact handleOperator_len b s h
  | chs => exact handleChs_len s h
  | onKey => rfl
  | actF => simpa [activateF] using h
  | actG => simpa [activateG] using h
  | clx => exact handleClx_len s h
  | swapXY => exact handleSwapXY_len s h
  | rollDown => exact handleRollDown_len s h
  | power => exact handlePower_len s h
  | recip => exact handleReciprocal_len s h
  | sqrtK => exact handleSqrt_len s h
  | percent => exact handlePercent_len s h
  | percentDelta => exact handlePercentDelta_len s h
  | actSto => simpa [activateSto] using h
  | actRcl => simpa [activateRcl] using h
  | sigmaPlus => exact handleSigmaPlus_len s h
  | clearSigma => exact handleClearSigma_len s h
  | meanK => exact handleMean_len s h
  | stdDevK => exact handleStdDev_len s h
  | slDep => exact handleSlDepreciation_len s h
  | soydDep => exact handleSoydDepreciation_len s h
  | dbDep => exact handleDbDepreciation_len s h
  | eex => exact handleEex_len s h
  | deltaDys => exact handleDeltaDays_len s h
  | dateCalc => exact handleDateCalc_len s h
  | fin k => exact handleFinOp_len k s h
  | unknown => exact h

theorem pressKey_len (k : String) (s : Calc) (h : s.stack.length = 4) :
    (pressKey k s).stack.length = 4 := by
  unfold pressKey
  split
  · exact handleSto_len _ s h
  · split
    · exact handleRcl_len _ s h
    · dsimp only
      split
      · split
        · unfold setDisplayFormat
          split <;> simpa using h
        · exact applyOp_len _ _ h
      · split
        · exact applyOp_len _ _ h
        · exact applyOp_len _ _ h

/-! ## Dispatch lemmas -/

/-- With no modal flag set and a non-digit token, `press_key` is exactly the
main-function dispatch. -/
theorem pressKey_no_modal (k : String) (s : Calc) (hdig : isDigitKey k = false)
    (hf : s.fActive = false) (hg : s.gActive = false)
    (hsto : s.stoActive = false) (hrcl : s.rclActive = false) :
    pressKey k s = executeFunction (some k) s := by
  unfold pressKey
  rw [if_neg (by simp [hdig]), if_neg (by simp [hdig])]
  dsimp only
  rw [if_neg (by simp [hf]), if_neg (by simp [hg])]
  congr 1
  cases s
  simp_all

/-- The handlers that call `_finalize_entry` as their very first step are
invariant under pre-finalisation. -/
theorem applyOp_finalize_first (op : Op)
    (hop : op ∈ [Op.enter, Op.binop .add, Op.binop .sub, Op.binop .mul, Op.binop .div,
      Op.swapXY, Op.rollDown, Op.power, Op.recip, Op.sqrtK, Op.percent, Op.percentDelta,
      Op.sigmaPlus, Op.slDep, Op.soydDep, Op.dbDep, Op.deltaDys, Op.dateCalc])
    (s : Calc) : applyOp op (finalizeEntry s) = applyOp op s := by
  fin_cases hop <;>
    simp only [applyOp, handleEnter, handleOperator, handleSwapXY, handleRollDown, handlePower,
      handleReciprocal, handleSqrt, handlePercent, handlePercentDelta, handleSigmaPlus,
      handleSlDepreciation, handleSoydDepreciation, handleDbDepreciation, handleDeltaDays,
      handleDateCalc, finalizeEntry_idem]

/-- `_handle_mean` leaves the entry state untouched (no finalize). -/
theorem handleMean_entry (s : Calc) :
    (handleMean s).isEntering = s.isEntering ∧ (handleMean s).entryBuffer = s.entryBuffer := by
  unfold handleMean
  dsimp only
  split <;> exact ⟨rfl, rfl⟩

/-- `_handle_std_dev` leaves the entry state untouched (no finalize). -/
theorem handleStdDev_entry (s : Calc) :
    (handleStdDev s).isEntering = s.isEntering
  ∧ (handleStdDev s).entryBuffer = s.entryBuffer := by
  unfold handleStdDev
  dsimp only
  repeat' split
  all_goals exact ⟨rfl, rfl⟩

theorem handleSto_stoActive (d : Nat) (s : Calc) :
    (handleSto d s).stoActive = s.stoActive := by
  unfold handleSto
  dsimp only
  split
  · exact finalizeEntry_stoActive s
  · exact finalizeEntry_stoActive s

theorem handleRcl_rclActive (d : Nat) (s : Calc) :
    (handleRcl d s).rclActive = s.rclActive := by
  unfold handleRcl
  dsimp only
  split
  · exact finalizeEntry_rclActive s
  · exact finalizeEntry_rclActive s

/-! ## Solver lemmas -/

theorem mkQ_zero_num (d : Int) : (mkQ 0 d).num = 0 := by
  unfold mkQ
  split
  · rfl
  · simp [Int.zero_tdiv]

theorem dec_sub_self_eqB (v : Q0) : (Dec.num v - Dec.num v).eqB 0 = true := by
  have h0 : v.num * (v.den : Int) - v.num * v.den = 0 := sub_self _
  show Dec.eqB (Dec.sub (Dec.num v) (Dec.num v)) 0 = true
  simp [Dec.sub, qsub, h0, Dec.eqB, qeq, mkQ_zero_num]

theorem secantSteps_le_fuel (f : Dec → Dec) (fuel : Nat) (a b : Dec) :
    secantSteps f fuel a b ≤ fuel := by
  induction fuel generalizing a b with
  | zero => simp [secantSteps]
  | succ k ih =>
    unfold secantSteps
    dsimp only
    split
    · omega
    · omega
    · split
      · omega
      · split
        · omega
        · omega
        · have h2 : 1 + k ≤ k + 1 := by omega
          exact le_trans (Nat.add_le_add_left (ih _ _) 1) h2

/-- Key-level version of `applyOp_finalize_first`. -/
theorem pressKey_pre_finalize (tok : String) (s : Calc)
    (hdig : isDigitKey tok = false)
    (hop : dispatch (some tok) ∈ [Op.enter, Op.binop .add, Op.binop .sub, Op.binop .mul,
      Op.binop .div, Op.swapXY, Op.rollDown, Op.power, Op.recip, Op.sqrtK, Op.percent,
      Op.percentDelta, Op.sigmaPlus, Op.slDep, Op.soydDep, Op.dbDep, Op.deltaDys, Op.dateCalc])
    (hf : s.fActive = false) (hg : s.gActive = false)
    (hsto : s.stoActive = false) (hrcl : s.rclActive = false) :
    pressKey tok (finalizeEntry s) = pressKey tok s := by
  rw [pressKey_no_modal tok _ hdig
        (by rw [finalizeEntry_fActive]; exact hf)
        (by rw [finalizeEntry_gActive]; exact hg)
        (by rw [finalizeEntry_stoActive]; exact hsto)
        (by rw [finalizeEntry_rclActive]; exact hrcl),
      pressKey_no_modal tok s hdig hf hg hsto hrcl]
  exact applyOp_finalize_first _ hop s

/-! ## Claims -/

/-- C1 (counterexample): after `5 ENTER 0 ÷` from reset, the Y register is
not 5 — both operands were popped before the division-by-zero test. -/
theorem c1_div_zero_y_not_preserved :
    (runKeys ["5", "ENTER", "0", "÷"] initCalc).stack.getD 1 Dec.nan ≠ Dec.num ⟨5, 1⟩ := by
  decide

/-- C1 (amended): `5 ENTER 0 ÷` from reset sets X to NaN, but only after
popping both operands: the final stack is `[NaN, 0, 0, 0]`, so Y ends at 0
(the value rotated down by the two pops), not at the preserved 5. -/
theorem c1_div_zero_final_stack :
    (runKeys ["5", "ENTER", "0", "÷"] initCalc).stack = [Dec.nan, 0, 0, 0] := by
  decide

/-- C2 (code bug): a single-digit key while `sto_active` (resp. `rcl_active`)
does resolve as a store into (recall from) that register, but `press_key`
returns without clearing the flag, so the mode persists: after
`7 STO 5 3` the value 7 is stored into register 5 and then again into
register 3, and `sto_active` is still true. -/
theorem c2_sto_rcl_digit_flag_not_cleared (s1 s2 : Calc)
    (h1 : s1.stoActive = true)
    (h2 : s2.rclActive = true) (h3 : s2.stoActive = false) :
    pressKey "5" s1 = handleSto 5 s1
  ∧ (pressKey "5" s1).stoActive = true
  ∧ pressKey "5" s2 = handleRcl 5 s2
  ∧ (pressKey "5" s2).rclActive = true
  ∧ (runKeys ["7", "STO", "5", "3"] initCalc).stoActive = true
  ∧ (runKeys ["7", "STO", "5", "3"] initCalc).storageRegs
      = [0, 0, 0, (7 : Dec), 0, (7 : Dec), 0, 0, 0, 0] := by
  have e1 : pressKey "5" s1 = handleSto 5 s1 := by
    unfold pressKey
    rw [if_pos ⟨h1, rfl⟩]
    rfl
  have e3 : pressKey "5" s2 = handleRcl 5 s2 := by
    unfold pressKey
    rw [if_neg (by simp [h3]), if_pos ⟨h2, rfl⟩]
    rfl
  refine ⟨e1, ?_, e3, ?_, by decide, by decide⟩
  · rw [e1, handleSto_stoActive]; exact h1
  · rw [e3, handleRcl_rclActive]; exact h2

/-- Witness for C2 at the state reached by pressing STO (resp. RCL) from
reset. -/
theorem c2_sto_rcl_digit_flag_not_cleared_witness :
    (pressKey "5" (pressKey "STO" initCalc)).stoActive = true
  ∧ (pressKey "5" (pressKey "RCL" initCalc)).rclActive = true :=
  ⟨(c2_sto_rcl_digit_flag_not_cleared (pressKey "STO" initCalc) (pressKey "RCL" initCalc)
      (by decide) (by decide) (by decide)).2.1,
   (c2_sto_rcl_digit_flag_not_cleared (pressKey "STO" initCalc) (pressKey "RCL" initCalc)
      (by decide) (by decide) (by decide)).2.2.2.1⟩

/-- C3 (code-bug evaluation): the dotted packed form is rejected by the date
decoder — `str(Decimal('1.012020'))` has its dot deleted by the
`replace('.', '')` cleanup, so decoding falls through to `str(int(...))`,
which yields the 1-character string "1" and fails; consequently
`1.012020 ENTER 1.012021 ΔDYS` leaves NaN in X instead of 366. -/
theorem c3_dotted_date_decode_fails :
    parseDateNumber (Dec.num (mkQ 1012020 1000000)) = none
  ∧ parseDateNumber (Dec.num (mkQ 1012021 1000000)) = none
  ∧ (runKeys ["1", ",", "0", "1", "2", "0", "2", "0", "ENTER",
        "1", ",", "0", "1", "2", "0", "2", "1", "ΔDYS"] initCalc).stack
      = [Dec.nan, 0, 0, 0] := by
  refine ⟨by decide, by decide, by decide⟩

/-- C4 (counterexample): after `CLΣ, 3 ENTER 4 Σ+, 2 ENTER 6 Σ+`, the x̄ key
does not push 2.5 — the accumulated x-values are 4 and 6, so Σx/n = 5
(2.5 is the mean of the y-values). -/
theorem c4_mean_not_two_point_five :
    ((runKeys ["CLΣ", "3", "ENTER", "4", "Σ+", "2", "ENTER", "6", "Σ+", "x̄"]
        initCalc).stack.headD Dec.nan).eqB (Dec.num ⟨5, 2⟩) = false := by
  decide

/-- C4 (amended): the sequence leaves n = 2 with Σx = 10, and x̄ pushes
Σx/n = 5 onto the stack without consuming the statistical registers. -/
theorem c4_mean_pushes_five :
    (runKeys ["CLΣ", "3", "ENTER", "4", "Σ+", "2", "ENTER", "6", "Σ+"] initCalc).statRegs.n
      = Dec.num ⟨2, 1⟩
  ∧ (runKeys ["CLΣ", "3", "ENTER", "4", "Σ+", "2", "ENTER", "6", "Σ+"] initCalc).statRegs.sx
      = Dec.num ⟨10, 1⟩
  ∧ (runKeys ["CLΣ", "3", "ENTER", "4", "Σ+", "2", "ENTER", "6", "Σ+", "x̄"] initCalc).stack
      = [Dec.num ⟨5, 1⟩, Dec.num ⟨2, 1⟩, Dec.num ⟨6, 1⟩, Dec.num ⟨2, 1⟩]
  ∧ (runKeys ["CLΣ", "3", "ENTER", "4", "Σ+", "2", "ENTER", "6", "Σ+", "x̄"] initCalc).statRegs
      = (runKeys ["CLΣ", "3", "ENTER", "4", "Σ+", "2", "ENTER", "6", "Σ+"] initCalc).statRegs := by
  refine ⟨by decide, by decide, by decide, by decide⟩

/-- C5 (counterexample): pressing x̄ while a number entry is in progress does
not finalize the entry — `is_entering` is still true afterwards, so finalize
is not the first step of every non-digit operation. -/
theorem c5_mean_does_not_finalize :
    (pressKey "x̄" (pressKey "5" initCalc)).isEntering = true := by decide

/-- C5 (amended): the binary operators, ENTER, swap, roll-down, power,
reciprocal, sqrt, percent, percent-change, Σ+, the depreciation keys and
the date keys all invoke finalize first (they are invariant under
pre-finalisation), but x̄, s and CLΣ never call finalize: they leave the
entry state untouched. -/
theorem c5_finalize_first_ops (s : Calc)
    (hf : s.fActive = false) (hg : s.gActive = false)
    (hsto : s.stoActive = false) (hrcl : s.rclActive = false) :
    (∀ tok ∈ (["ENTER", "+", "-", "×", "÷", "x<>y", "R↓", "y^x", "1/x", "√x", "%", "Δ%",
        "Σ+", "SL", "SOYD", "DB", "ΔDYS", "DATE"] : List String),
      pressKey tok (finalizeEntry s) = pressKey tok s)
  ∧ (pressKey "x̄" s).isEntering = s.isEntering
  ∧ (pressKey "x̄" s).entryBuffer = s.entryBuffer
  ∧ (pressKey "s" s).isEntering = s.isEntering
  ∧ (pressKey "s" s).entryBuffer = s.entryBuffer
  ∧ (pressKey "CLΣ" s).isEntering = s.isEntering
  ∧ (pressKey "CLΣ" s).entryBuffer = s.entryBuffer := by
  have hf2 : (finalizeEntry s).fActive = false := by rw [finalizeEntry_fActive]; exact hf
  have hg2 : (finalizeEntry s).gActive = false := by rw [finalizeEntry_gActive]; exact hg
  have hsto2 : (finalizeEntry s).stoActive = false := by rw [finalizeEntry_stoActive]; exact hsto
  have hrcl2 : (finalizeEntry s).rclActive = false := by rw [finalizeEntry_rclActive]; exact hrcl
  refine ⟨?_, ?_, ?_, ?_, ?_, ?_, ?_⟩
  · intro tok htok
    fin_cases htok <;>
      exact pressKey_pre_finalize _ s (by decide) (by decide) hf hg hsto hrcl
  · rw [pressKey_no_modal "x̄" s rfl hf hg hsto hrcl]
    exact (handleMean_entry s).1
  · rw [pressKey_no_modal "x̄" s rfl hf hg hsto hrcl]
    exact (handleMean_entry s).2
  · rw [pressKey_no_modal "s" s rfl hf hg hsto hrcl]
    exact (handleStdDev_entry s).1
  · rw [pressKey_no_modal "s" s rfl hf hg hsto hrcl]
    exact (handleStdDev_entry s).2
  · rw [pressKey_no_modal "CLΣ" s rfl hf hg hsto hrcl]
    rfl
  · rw [pressKey_no_modal "CLΣ" s rfl hf hg hsto hrcl]
    rfl

/-- Witness for C5 at the state typing `5` from reset. -/
theorem c5_finalize_first_ops_witness :
    (pressKey "x̄" (pressKey "5" initCalc)).isEntering = (pressKey "5" initCalc).isEntering :=
  (c5_finalize_first_ops (pressKey "5" initCalc)
    (by decide) (by decide) (by decide) (by decide)).2.1

/-- C6: every key press preserves the 4-slot stack, push inserts a new X and
drops the old T, and pop returns X while duplicating the old T into the
vacated top slot. -/
theorem c6_stack_always_four_slots (k : String) (s : Calc) (h : s.stack.length = 4) :
    (pressKey k s).stack.length = 4
  ∧ (∀ v x y z t, (pushStack v { s with stack := [x, y, z, t] }).stack = [v, x, y, z])
  ∧ (∀ x y z t, popStack { s with stack := [x, y, z, t] }
      = (x, { s with stack := [y, z, t, t] })) := by
  refine ⟨pressKey_len k s h, ?_, ?_⟩
  · intro v x y z t; rfl
  · intro x y z t; rfl

/-- Witness for C6 at a concrete key press from reset. -/
theorem c6_stack_always_four_slots_witness :
    (pressKey "+" initCalc).stack.length = 4 :=
  (c6_stack_always_four_slots "+" initCalc (by decide)).1

/-- C7: ON resets stack, entry state, modal flags, display format and the
statistical registers, and preserves the storage and financial registers. -/
theorem c7_reset_frame (s : Calc) (hf : s.fActive = false) (hg : s.gActive = false) :
    pressKey "ON" s =
      { storageRegs := s.storageRegs
        finRegs := s.finRegs
        statRegs := zeroStatRegs
        stack := List.replicate 4 (0 : Dec)
        entryBuffer := ['0']
        isEntering := false
        fActive := false
        gActive := false
        stoActive := false
        rclActive := false
        displayDecimals := 2
        isEnteringExponent := false
        exponentBuffer := [] } := by
  have h1 : isDigitKey "ON" = false := rfl
  unfold pressKey
  rw [if_neg (by simp [h1]), if_neg (by simp [h1])]
  dsimp only
  rw [if_neg (by simp [hf]), if_neg (by simp [hg])]
  rfl

/-- Witness for C7 at a state with populated registers and a pending entry. -/
theorem c7_reset_frame_witness :
    pressKey "ON" c7State =
      { storageRegs := c7State.storageRegs
        finRegs := c7State.finRegs
        statRegs := zeroStatRegs
        stack := List.replicate 4 (0 : Dec)
        entryBuffer := ['0']
        isEntering := false
        fActive := false
        gActive := false
        stoActive := false
        rclActive := false
        displayDecimals := 2
        isEnteringExponent := false
        exponentBuffer := [] } :=
  c7_reset_frame c7State (by decide) (by decide)

/-- C8: finalize is idempotent — one call always leaves `is_entering` false,
and a call on a non-entering state changes nothing. -/
theorem c8_finalize_idempotent (s : Calc) :
    finalizeEntry (finalizeEntry s) = finalizeEntry s
  ∧ (s.isEntering = false → finalizeEntry s = s) :=
  ⟨finalizeEntry_idem s, finalizeEntry_of_not_entering s⟩

/-- Witness for C8 at the reset state. -/
theorem c8_finalize_idempotent_witness :
    finalizeEntry (finalizeEntry initCalc) = finalizeEntry initCalc
  ∧ finalizeEntry initCalc = initCalc :=
  ⟨(c8_finalize_idempotent initCalc).1, (c8_finalize_idempotent initCalc).2 (by decide)⟩

/-- C9 (counterexample): the solver raises (models Python's trapped
`InvalidOperation` on a NaN ordered comparison) instead of returning when
n is NaN, so "never raises" fails. -/
theorem c9_solveForI_raises_on_nan : solveForI Dec.nan 0 0 0 = Except.error () := rfl

/-- C9 (amended): the secant loop executes at most 100 iterations for every
input; the solver returns NaN immediately when `n <= 0` compares true, an
exhausted iteration budget yields NaN, and two equal successive function
values (with the tolerance test failing) yield NaN.  It never loops
unboundedly, but it raises instead of returning when a comparison involves
NaN. -/
theorem c9_solveForI_terminates (n pv pmt fv : Dec) :
    secantSteps (tvmF n pv pmt fv) 100 i0Init i1Init ≤ 100
  ∧ (dcmpLe n 0 = Except.ok true → solveForI n pv pmt fv = Except.ok Dec.nan)
  ∧ (n = Dec.nan → solveForI n pv pmt fv = Except.error ())
  ∧ (∀ f a b, secantGo f 0 a b = Except.ok Dec.nan)
  ∧ (∀ (f : Dec → Dec) (fuel : Nat) (a b : Dec) (v : Q0),
      f a = f b → f b = Dec.num v → qlt (qabs v) ⟨1, 1000000000⟩ = false →
      secantGo f (fuel + 1) a b = Except.ok Dec.nan) := by
  refine ⟨secantSteps_le_fuel _ _ _ _, ?_, ?_, ?_, ?_⟩
  · intro h
    unfold solveForI
    rw [h]
  · intro h
    subst h
    rfl
  · intro f a b
    rfl
  · intro f fuel a b v hab hbv habs
    unfold secantGo
    dsimp only
    rw [hab, hbv]
    simp [dcmpLt, Dec.dabs, tolD, habs, dec_sub_self_eqB]

/-- Witness for C9: n = -1 returns NaN immediately, and a constant function
value of 1 triggers the equal-values NaN guard. -/
theorem c9_solveForI_terminates_witness :
    solveForI (Dec.num ⟨-1, 1⟩) 0 0 0 = Except.ok Dec.nan
  ∧ secantGo (fun _ => Dec.num ⟨1, 1⟩) 3 0 0 = Except.ok Dec.nan :=
  ⟨(c9_solveForI_terminates (Dec.num ⟨-1, 1⟩) 0 0 0).2.1 rfl,
   (c9_solveForI_terminates 0 0 0 0).2.2.2.2 (fun _ => Dec.num ⟨1, 1⟩) 2 0 0 ⟨1, 1⟩
     rfl rfl (by decide)⟩

/-- C10: ENTER finalizes (which always leaves `is_entering` false) and then
pushes a copy of X: if the post-finalize stack is `[x, y, z, t]`, the stack
after ENTER is `[x, x, y, z]` — X duplicated, old T discarded. -/
theorem c10_enter_duplicates_x (s : Calc) (x y z t : Dec)
    (hf : s.fActive = false) (hg : s.gActive = false)
    (hsto : s.stoActive = false) (hrcl : s.rclActive = false)
    (hstk : (finalizeEntry s).stack = [x, y, z, t]) :
    (finalizeEntry s).isEntering = false
  ∧ (pressKey "ENTER" s).stack = [x, x, y, z] := by
  refine ⟨finalizeEntry_isEntering s, ?_⟩
  rw [pressKey_no_modal "ENTER" s rfl hf hg hsto hrcl]
  show (handleEnter s).stack = _
  unfold handleEnter
  dsimp only
  rw [if_pos (finalizeEntry_isEntering s)]
  simp [pushStack, slot, hstk]

/-- Witness for C10: typing `4` onto the stack `[3, 3, 2, 2]` and pressing
ENTER commits the 4 (first lift) and duplicates it (second lift). -/
theorem c10_enter_duplicates_x_witness :
    (finalizeEntry c10State).isEntering = false
  ∧ (pressKey "ENTER" c10State).stack = [(4 : Dec), 4, 3, 3] :=
  c10_enter_duplicates_x c10State 4 3 3 2
    (by decide) (by decide) (by decide) (by decide) (by decide)

end HP12C
